import Mathlib

/-
Verification of the white-noise-cli playback coordinator.

The program is a Bubble Tea terminal application (src/main.go, with a
near-duplicate embedded-asset variant in src/app/app.go).  Its model holds a
catalog of track names (`choices`), a cursor, a `selected` index (-1 meaning
no active track), an unbuffered `stop` channel, and an error slot.  `Update`
maps incoming messages (key presses, `statusMsg`, `errMsg`) to a new model and
an optional command (`playTrack`, `stopTrack`, or quit).  `playTrack` opens
`<snakeCase(name)>.wav`, decodes it, initializes the speaker, loops the stream
indefinitely, and returns a terminal message after its deferred cleanup runs;
`stopTrack` sends on the unbuffered `stop` channel.

Everything below is a shallow embedding of that code: strings are Lean
strings (or lists of characters for the character-level functions), Go ints
are `Int`, channels and goroutines are made explicit in a small trace
semantics.
-/

namespace WhiteNoise

/-- Embeds the `model` struct of src/main.go lines 25-31.  The Go field
`stop chan bool` carries no state visible to `Update`; the runtime behaviour
of the channel is modelled separately (`AppState`, `stopTrackResult`).
`err errMsg` is modelled as an optional error text. -/
structure Model where
  choices : List String
  cursor : Int
  selected : Int
  err : Option String
deriving Repr, DecidableEq

/-- Embeds the three message types `Update` inspects (src/main.go lines
66-112): a `tea.KeyMsg` carrying the key string, a `statusMsg` (an int), and
an `errMsg` (error text).  Any other message falls through to the default
branch of `Update`. -/
inductive Msg where
  | key (s : String)
  | status (n : Int)
  | errM (e : String)
deriving Repr, DecidableEq

/-- Embeds the `tea.Cmd` values `Update` can return: `nil`, `tea.Quit`,
`m.playTrack`, or `m.stopTrack`. -/
inductive Cmd where
  | none
  | quit
  | playTrack
  | stopTrack
deriving Repr, DecidableEq

/-- Error text built at src/main.go line 103 (`fmt.Errorf("received non-ok
status %d", msg)`). -/
def statusErrText (n : Int) : String := "received non-ok status " ++ toString n

/-- Embeds `model.Update` (src/main.go lines 65-117) literally: the key
switch (quit keys, cursor moves clamped at the ends, the enter/space toggle
that compares `selected` with `cursor`), the `statusMsg` case (non-zero
status records an error and quits; status 0 falls through to `return m,
nil`), and the `errMsg` case (record the error and quit). -/
def Update (m : Model) (msg : Msg) : Model × Cmd :=
  match msg with
  | Msg.key s =>
    if s = "ctrl+c" ∨ s = "q" then
      (m, Cmd.quit)
    else if s = "up" ∨ s = "k" then
      (if m.cursor > 0 then { m with cursor := m.cursor - 1 } else m, Cmd.none)
    else if s = "down" ∨ s = "j" then
      (if m.cursor < (m.choices.length : Int) - 1 then { m with cursor := m.cursor + 1 } else m,
        Cmd.none)
    else if s = "enter" ∨ s = " " then
      if m.selected ≠ m.cursor then
        ({ m with selected := m.cursor }, Cmd.playTrack)
      else
        ({ m with selected := -1 }, Cmd.stopTrack)
    else
      (m, Cmd.none)
  | Msg.status n =>
    if n ≠ 0 then ({ m with err := some (statusErrText n) }, Cmd.quit)
    else (m, Cmd.none)
  | Msg.errM e => ({ m with err := some e }, Cmd.quit)

/-- Embeds `initialModel` (src/main.go lines 33-58): the three-track catalog,
cursor at the zero value 0, `selected` at the -1 sentinel, no error. -/
def initialModel : Model :=
  { choices := ["Forest", "Train car", "Horse carriage"]
    cursor := 0
    selected := -1
    err := none }

/-- Observable events of the runtime execution: a playback session starting
for a catalog index, a send on the `stop` channel being received by a live
session, and the program quitting. -/
inductive Event where
  | start (i : Int)
  | stopSignal
  | quitEvt
deriving Repr, DecidableEq

/-- State of the whole program as the Bubble Tea runtime executes it: the
model, the number of playback sessions currently live (each `m.playTrack`
command spawns a goroutine that loops the decoded stream indefinitely, per
`beep.Loop(-1, streamer)` at src/main.go line 176, until it receives on the
`stop` channel), and the trace of events so far. -/
structure AppState where
  model : Model
  live : Nat
  trace : List Event
deriving Repr, DecidableEq

/-- Executes the command returned by `Update`, as the Bubble Tea runtime
does: `playTrack` spawns a session (it becomes live; the track it plays is
`m.choices[m.selected]`, src/main.go line 153); `stopTrack` sends on the
unbuffered `stop` channel, which rendezvouses with a live session that then
terminates (when no session is live the send blocks and no session count
changes — `live - 1` truncates at 0); quit records the program exiting with
no further effect on sessions (src/main.go line 74 returns `tea.Quit`
directly). -/
def applyCmd (st : AppState) (m : Model) (c : Cmd) : AppState :=
  match c with
  | Cmd.none => { st with model := m }
  | Cmd.quit => { model := m, live := st.live, trace := st.trace ++ [Event.quitEvt] }
  | Cmd.playTrack =>
      { model := m, live := st.live + 1, trace := st.trace ++ [Event.start m.selected] }
  | Cmd.stopTrack =>
      { model := m, live := st.live - 1, trace := st.trace ++ [Event.stopSignal] }

/-- Processes one key press: run `Update` on the key message and execute the
returned command. -/
def stepKey (st : AppState) (k : String) : AppState :=
  applyCmd st (Update st.model (Msg.key k)).1 (Update st.model (Msg.key k)).2

/-- Processes a sequence of key presses in order. -/
def runKeys (st : AppState) : List String → AppState
  | [] => st
  | k :: ks => runKeys (stepKey st k) ks

/-- The program as it starts: `initialModel`, no live session, empty trace. -/
def initialAppState : AppState :=
  { model := initialModel, live := 0, trace := [] }

/-- Embeds `model.stopTrack` (src/main.go lines 192-196): `m.stop <- true`
on the unbuffered channel, then `return statusMsg(0)`.  The send completes
only by rendezvous with a receiver, i.e. a live session blocked in the
`select` at lines 184-189; with no live session the send blocks forever,
modelled as `none`.  With a receiver present the function returns status 0,
modelled as `some 0`. -/
def stopTrackResult (live : Nat) : Option Int :=
  if 0 < live then some 0 else none

/-- How a live playback loop terminates: the `done` callback fires (natural
end of the sequence) or a value arrives on the `stop` channel (cancellation)
— the two arms of the `select` at src/main.go lines 184-189. -/
inductive TermCause where
  | natural
  | cancelled
deriving Repr, DecidableEq

/-- Environment oracle for one `playTrack` run: whether `os.Open` succeeds
(line 158), whether `wav.Decode` succeeds (line 163), whether `speaker.Init`
succeeds (line 169), and how the playback loop terminates if reached. -/
structure PlayOracle where
  openOk : Bool
  decodeOk : Bool
  initOk : Bool
  cause : TermCause
deriving Repr, DecidableEq

/-- Calls and resource actions performed inside one `playTrack` run, in
order. -/
inductive PEvent where
  | openCall
  | decodeCall
  | speakerInit
  | speakerPlay
  | speakerClose
  | streamerClose
deriving Repr, DecidableEq

/-- Terminal message a `playTrack` run returns, labelled with the spec's
error taxonomy: the three `errMsg` return sites of src/main.go (open failure
line 160, decode failure line 165, speaker-init failure line 173) and the
`statusMsg(0)` success returns (lines 186 and 188). -/
inductive PlayMsg where
  | statusOk
  | resourceError
  | decodeError
  | deviceError
deriving Repr, DecidableEq

/-- Embeds `model.playTrack` (src/main.go lines 152-190) as a function of
the environment oracle, returning the ordered list of events that happen
inside the call and the terminal message.  The terminal message is delivered
to `Update` only after the function returns, hence after every event in the
list.  Deferred calls run last-in first-out on return: `streamer.Close()` is
deferred at line 167 and `speaker.Close()` at line 182, so a return from the
`select` runs `speakerClose` then `streamerClose`; a return at the
speaker-init failure site runs only `streamerClose`; the two error returns
before line 167 run no deferred call. -/
def playTrackRun (o : PlayOracle) : List PEvent × PlayMsg :=
  if o.openOk = false then
    ([PEvent.openCall], PlayMsg.resourceError)
  else if o.decodeOk = false then
    ([PEvent.openCall, PEvent.decodeCall], PlayMsg.decodeError)
  else if o.initOk = false then
    ([PEvent.openCall, PEvent.decodeCall, PEvent.speakerInit, PEvent.streamerClose],
      PlayMsg.deviceError)
  else
    ([PEvent.openCall, PEvent.decodeCall, PEvent.speakerInit, PEvent.speakerPlay,
      PEvent.speakerClose, PEvent.streamerClose], PlayMsg.statusOk)

/-- Character-level effect of `strings.ReplaceAll(s, " ", "-")` (src/main.go
line 204): the pattern is the single character space, so the call replaces
each space character with a dash. -/
def replaceSpace (c : Char) : Char :=
  if c = ' ' then '-' else c

/-- Character-level effect of `strings.ToLower` (src/main.go line 203) on
the ASCII range the catalog names use: map each of A-Z to its lowercase
form (code point + 32) and leave every other character unchanged. -/
def goToLower (c : Char) : Char :=
  if 65 ≤ c.toNat ∧ c.toNat ≤ 90 then Char.ofNat (c.toNat + 32) else c

/-- Embeds `snakeCase` (src/main.go lines 202-208): `ReplaceAll(s, " ",
"-")` first, then `ToLower`, over the string's characters. -/
def snakeCase (s : List Char) : List Char :=
  (s.map replaceSpace).map goToLower

/-- File name built by `playTrack` at src/main.go line 156:
`fmt.Sprintf("%s.wav", snakeCase(track))`. -/
def fileName (track : List Char) : List Char :=
  snakeCase track ++ ".wav".toList

/-- File name built by the embedded-asset variant at src/app/app.go line
151: `fmt.Sprintf("assets/%s.wav", snakeCase(track))`. -/
def fileNameApp (track : List Char) : List Char :=
  "assets/".toList ++ snakeCase track ++ ".wav".toList

/-- Follows the spec's words for the resource identifier: the name
lower-cased, with every space character replaced by a dash, suffixed with
".wav".  Stated independently of the source's operation order so that the
source function can be compared against it. -/
def specResourceId (name : List Char) : List Char :=
  (name.map goToLower).map replaceSpace ++ ".wav".toList

/-- Follows the spec's words for the embedded-asset variant: the same
identifier prefixed with "assets/". -/
def specResourceIdApp (name : List Char) : List Char :=
  "assets/".toList ++ specResourceId name

/-- Key strings that `Update` treats as cursor moves (src/main.go lines
77 and 83). -/
def isMoveKey (s : String) : Prop :=
  s = "up" ∨ s = "k" ∨ s = "down" ∨ s = "j"

instance (s : String) : Decidable (isMoveKey s) := by
  unfold isMoveKey; infer_instance

/-- The cursor is within the catalog bounds: in `[0, len-1]` for a nonempty
catalog, and pinned to 0 (its Go zero value) for an empty one, where the
interval is empty. -/
def cursorInBounds (m : Model) : Prop :=
  0 ≤ m.cursor ∧ m.cursor ≤ max ((m.choices.length : Int) - 1) 0

instance (m : Model) : Decidable (cursorInBounds m) := by
  unfold cursorInBounds; infer_instance

/-- Model of src/main.go at the start of the C8 scenario: catalog
["Rain", "Forest"], cursor at 0, nothing selected, no live session. -/
def scenarioState : AppState :=
  { model := { choices := ["Rain", "Forest"], cursor := 0, selected := -1, err := none }
    live := 0
    trace := [] }

/-- Concrete model used by the C2 and C3 evaluations: the initial catalog
with track 0 active. -/
def playingModel : Model :=
  { choices := ["Forest", "Train car", "Horse carriage"]
    cursor := 1
    selected := 0
    err := none }

theorem update_up_eq (m : Model) :
    Update m (Msg.key "up") =
      (if m.cursor > 0 then { m with cursor := m.cursor - 1 } else m, Cmd.none) := rfl

theorem update_k_eq (m : Model) :
    Update m (Msg.key "k") =
      (if m.cursor > 0 then { m with cursor := m.cursor - 1 } else m, Cmd.none) := rfl

theorem update_down_eq (m : Model) :
    Update m (Msg.key "down") =
      (if m.cursor < (m.choices.length : Int) - 1 then { m with cursor := m.cursor + 1 } else m,
        Cmd.none) := rfl

theorem update_j_eq (m : Model) :
    Update m (Msg.key "j") =
      (if m.cursor < (m.choices.length : Int) - 1 then { m with cursor := m.cursor + 1 } else m,
        Cmd.none) := rfl

/-- A cursor-move key changes nothing but the cursor, returns no command,
and keeps the cursor within the catalog bounds. -/
theorem update_move_props (m : Model) (k : String) (hk : isMoveKey k) :
    (Update m (Msg.key k)).2 = Cmd.none ∧
    (Update m (Msg.key k)).1.choices = m.choices ∧
    (Update m (Msg.key k)).1.selected = m.selected ∧
    (Update m (Msg.key k)).1.err = m.err ∧
    (cursorInBounds m → cursorInBounds (Update m (Msg.key k)).1) := by
  have hdec : ∀ m2 : Model,
      cursorInBounds m2 →
      cursorInBounds ((if m2.cursor > 0 then { m2 with cursor := m2.cursor - 1 } else m2)) := by
    intro m2 hm2
    by_cases h : m2.cursor > 0
    · rw [if_pos h]
      unfold cursorInBounds at hm2 ⊢
      dsimp only
      omega
    · rwa [if_neg h]
  have hinc : ∀ m2 : Model,
      cursorInBounds m2 →
      cursorInBounds
        ((if m2.cursor < (m2.choices.length : Int) - 1 then { m2 with cursor := m2.cursor + 1 }
          else m2)) := by
    intro m2 hm2
    by_cases h : m2.cursor < (m2.choices.length : Int) - 1
    · rw [if_pos h]
      unfold cursorInBounds at hm2 ⊢
      dsimp only
      omega
    · rwa [if_neg h]
  rcases hk with h | h | h | h <;> subst h
  · rw [update_up_eq]
    refine ⟨rfl, ?_, ?_, ?_, hdec m⟩ <;> by_cases h : m.cursor > 0 <;> simp [h]
  · rw [update_k_eq]
    refine ⟨rfl, ?_, ?_, ?_, hdec m⟩ <;> by_cases h : m.cursor > 0 <;> simp [h]
  · rw [update_down_eq]
    refine ⟨rfl, ?_, ?_, ?_, hinc m⟩ <;>
      by_cases h : m.cursor < (m.choices.length : Int) - 1 <;> simp [h]
  · rw [update_j_eq]
    refine ⟨rfl, ?_, ?_, ?_, hinc m⟩ <;>
      by_cases h : m.cursor < (m.choices.length : Int) - 1 <;> simp [h]

/-- One cursor-move key press leaves everything but the model's cursor
unchanged at the runtime level as well: no event is emitted and the session
count is untouched. -/
theorem stepKey_move_props (st : AppState) (k : String) (hk : isMoveKey k) :
    (stepKey st k).model.choices = st.model.choices ∧
    (stepKey st k).model.selected = st.model.selected ∧
    (stepKey st k).model.err = st.model.err ∧
    (stepKey st k).live = st.live ∧
    (stepKey st k).trace = st.trace ∧
    (cursorInBounds st.model → cursorInBounds (stepKey st k).model) := by
  obtain ⟨h2, hch, hsel, herr, hbnd⟩ := update_move_props st.model k hk
  unfold stepKey
  rw [h2]
  exact ⟨hch, hsel, herr, rfl, rfl, hbnd⟩

/-- C9: for every sequence of cursor-move commands from a state whose cursor
is within the catalog bounds, the cursor stays within `[0, len(catalog)-1]`
(and stays at 0 for an empty catalog, where it cannot move out of bounds);
cursor moves change only the cursor: catalog, selection and error slot are
unchanged, no session starts or stops, and no Start or Stop event is
emitted. -/
theorem c9_move_cursor_bounds (st : AppState) (ks : List String)
    (hks : ∀ k ∈ ks, isMoveKey k) (hb : cursorInBounds st.model) :
    cursorInBounds (runKeys st ks).model ∧
    (runKeys st ks).model.choices = st.model.choices ∧
    (runKeys st ks).model.selected = st.model.selected ∧
    (runKeys st ks).model.err = st.model.err ∧
    (runKeys st ks).live = st.live ∧
    (runKeys st ks).trace = st.trace := by
  induction ks generalizing st with
  | nil => exact ⟨hb, rfl, rfl, rfl, rfl, rfl⟩
  | cons k ks ih =>
    have hk : isMoveKey k := hks k (List.mem_cons_self k ks)
    have hrest : ∀ k2 ∈ ks, isMoveKey k2 := fun k2 h2 => hks k2 (List.mem_cons_of_mem k h2)
    obtain ⟨hch, hsel, herr, hlive, htr, hbnd⟩ := stepKey_move_props st k hk
    have hrun : runKeys st (k :: ks) = runKeys (stepKey st k) ks := rfl
    obtain ⟨ib, ich, isel, ierr, ilive, itr⟩ := ih (stepKey st k) hrest (hbnd hb)
    rw [hrun]
    exact ⟨ib, ich.trans hch, isel.trans hsel, ierr.trans herr, ilive.trans hlive,
      itr.trans htr⟩

/-- Witness for C9 at a concrete input: the initial three-track model and
the key sequence down, down, down, up, down. -/
theorem c9_move_cursor_bounds_witness :
    ((∀ k ∈ ["j", "down", "j", "k", "j"], isMoveKey k) ∧
      cursorInBounds initialAppState.model) ∧
    (cursorInBounds (runKeys initialAppState ["j", "down", "j", "k", "j"]).model ∧
      (runKeys initialAppState ["j", "down", "j", "k", "j"]).model.choices =
        initialAppState.model.choices ∧
      (runKeys initialAppState ["j", "down", "j", "k", "j"]).model.selected =
        initialAppState.model.selected ∧
      (runKeys initialAppState ["j", "down", "j", "k", "j"]).model.err =
        initialAppState.model.err ∧
      (runKeys initialAppState ["j", "down", "j", "k", "j"]).live = initialAppState.live ∧
      (runKeys initialAppState ["j", "down", "j", "k", "j"]).trace = initialAppState.trace) :=
  ⟨⟨by decide, by decide⟩,
    c9_move_cursor_bounds initialAppState ["j", "down", "j", "k", "j"] (by decide) (by decide)⟩

/-- C1: evaluating the state machine on the command sequence ToggleSelect,
MoveCursor(+1), ToggleSelect from the initial state shows the one-live-
session invariant failing: two Start events and no Stop event are emitted,
and two playback sessions are live at once while the selection reports a
single active index. -/
theorem c1_two_sessions_live :
    (runKeys initialAppState ["enter", "j", "enter"]).live = 2 ∧
    (runKeys initialAppState ["enter", "j", "enter"]).trace =
      [Event.start 0, Event.start 1] ∧
    (runKeys initialAppState ["enter", "j", "enter"]).model.selected = 1 := by decide

/-- C2: evaluating `Update` in state Playing(0) with the cursor on index 1
and a ToggleSelect key: the machine moves to Playing(1) and issues only the
playTrack (Start) command — no Stop command for the running session 0 is
issued. -/
theorem c2_switch_issues_only_start :
    Update playingModel (Msg.key "enter") =
      ({ playingModel with selected := 1 }, Cmd.playTrack) := by decide

/-- C3 counterexample: a success Outcome (statusMsg 0) received while track
0 is active leaves the active index at 0 — it is not cleared to the -1
sentinel, so the machine does not transition to Idle on the success
Outcome. -/
theorem c3_status_ok_keeps_selection :
    (Update playingModel (Msg.status 0)).1.selected = 0 ∧ (0 : Int) ≠ -1 := by decide

/-- C3 as amended: a success Outcome (statusMsg 0) is a no-op for the state
machine — the model, including the active index, is unchanged and no
command is issued.  The active index is cleared eagerly when the Stop
toggle itself is processed (before the Outcome arrives), not in response to
the Outcome, and no session-identity check is performed. -/
theorem c3_success_outcome_noop (m : Model) : Update m (Msg.status 0) = (m, Cmd.none) := by
  simp [Update]

/-- C4: evaluating `stopTrack` against the channel semantics: with no live
session receiving on the unbuffered `stop` channel (a second Stop on the
same handle, or a Stop after the session already completed), the send
blocks forever and the call never returns; with one live session it
returns status 0.  Stop is therefore not idempotent. -/
theorem c4_stop_blocks_without_receiver :
    stopTrackResult 0 = none ∧ stopTrackResult 1 = some 0 := by decide

/-- C5: for every playback session and every way it terminates (natural
completion, cancellation, or failure at any stage), if the output device
was acquired then `speaker.Close` happens inside the call — hence before
the terminal message is delivered — and if the decoder was opened then
`streamer.Close` likewise happens before delivery. -/
theorem c5_release_before_outcome (o : PlayOracle) :
    (o.openOk = true ∧ o.decodeOk = true ∧ o.initOk = true →
      PEvent.speakerClose ∈ (playTrackRun o).1) ∧
    (o.openOk = true ∧ o.decodeOk = true →
      PEvent.streamerClose ∈ (playTrackRun o).1) := by
  obtain ⟨o1, o2, o3, c⟩ := o
  cases o1 <;> cases o2 <;> cases o3 <;> cases c <;> decide

/-- Witness for C5 at a concrete oracle: a session that acquired every
resource and was cancelled. -/
theorem c5_release_before_outcome_witness :
    PEvent.speakerClose ∈
      (playTrackRun
        { openOk := true, decodeOk := true, initOk := true, cause := TermCause.cancelled }).1 ∧
    PEvent.streamerClose ∈
      (playTrackRun
        { openOk := true, decodeOk := true, initOk := true, cause := TermCause.cancelled }).1 :=
  ⟨(c5_release_before_outcome _).1 ⟨rfl, rfl, rfl⟩,
    (c5_release_before_outcome _).2 ⟨rfl, rfl⟩⟩

/-- C6: evaluating the Quit command while a session is live: from the
initial state, ToggleSelect starts a session, and the q key then quits with
the session still live — the trace carries no stop signal, so no
cancellation is delivered to the running session before the process
terminates. -/
theorem c6_quit_without_cancellation :
    (runKeys initialAppState ["enter", "q"]).live = 1 ∧
    Event.stopSignal ∉ (runKeys initialAppState ["enter", "q"]).trace ∧
    (runKeys initialAppState ["enter", "q"]).trace = [Event.start 0, Event.quitEvt] := by decide

/-- C7: a Start whose resource key does not resolve (os.Open fails) returns
the ResourceError outcome immediately, with no speaker-initialization or
play call in the session's trace, whatever the rest of the environment
would have done; and the state machine handles the resulting error message
by recording the error (its error-display state, rendered by View) and
quitting. -/
theorem c7_missing_resource (d i : Bool) (c : TermCause) (m : Model) (e : String) :
    playTrackRun { openOk := false, decodeOk := d, initOk := i, cause := c } =
      ([PEvent.openCall], PlayMsg.resourceError) ∧
    PEvent.speakerInit ∉
      (playTrackRun { openOk := false, decodeOk := d, initOk := i, cause := c }).1 ∧
    PEvent.speakerPlay ∉
      (playTrackRun { openOk := false, decodeOk := d, initOk := i, cause := c }).1 ∧
    Update m (Msg.errM e) = ({ m with err := some e }, Cmd.quit) := by
  refine ⟨rfl, ?_, ?_, rfl⟩
  · show PEvent.speakerInit ∉ [PEvent.openCall]
    decide
  · show PEvent.speakerPlay ∉ [PEvent.openCall]
    decide

/-- C8: on the catalog ["Rain", "Forest"] with the cursor at 0 and no active
track, the sequence MoveCursor(+1), ToggleSelect, ToggleSelect passes
through Idle, Playing(1), Idle; the full trace is exactly one Start (for
index 1) followed by exactly one Stop, and no session remains live. -/
theorem c8_rain_forest_scenario :
    (runKeys scenarioState ["down"]).model.selected = -1 ∧
    (runKeys scenarioState ["down"]).trace = [] ∧
    (runKeys scenarioState ["down", "enter"]).model.selected = 1 ∧
    (runKeys scenarioState ["down", "enter"]).trace = [Event.start 1] ∧
    (runKeys scenarioState ["down", "enter", "enter"]).model.selected = -1 ∧
    (runKeys scenarioState ["down", "enter", "enter"]).trace =
      [Event.start 1, Event.stopSignal] ∧
    (runKeys scenarioState ["down", "enter", "enter"]).live = 0 := by decide

theorem char_toNat_ofNat_valid (n : Nat) (h : n.isValidChar) : (Char.ofNat n).toNat = n := by
  simp only [Char.ofNat, h, Char.ofNatAux, dif_pos]
  rfl

theorem goToLower_ne_space (c : Char) (h : c ≠ ' ') : goToLower c ≠ ' ' := by
  unfold goToLower
  split
  · intro hc
    rename_i hr
    have hv : (c.toNat + 32).isValidChar := Or.inl (by omega)
    have h1 := char_toNat_ofNat_valid (c.toNat + 32) hv
    rw [hc] at h1
    have h2 : (' ' : Char).toNat = 32 := by decide
    omega
  · exact h

theorem goToLower_replaceSpace (c : Char) :
    goToLower (replaceSpace c) = replaceSpace (goToLower c) := by
  by_cases hc : c = ' '
  · subst hc; decide
  · rw [replaceSpace, if_neg hc, replaceSpace, if_neg (goToLower_ne_space c hc)]

/-- C10: the resource identifier `playTrack` opens is a function of the
track name alone, equal to the spec's description: the name lower-cased
with every space replaced by a dash, suffixed ".wav" (and prefixed
"assets/" in the embedded-asset variant of src/app/app.go).  The source
replaces spaces before lower-casing; the equality shows the two orders
agree, so the same name always yields the same identifier. -/
theorem c10_resource_identifier (name : List Char) :
    fileName name = specResourceId name ∧ fileNameApp name = specResourceIdApp name := by
  have h : snakeCase name = (name.map goToLower).map replaceSpace := by
    unfold snakeCase
    rw [List.map_map, List.map_map]
    congr 1
    funext c
    exact goToLower_replaceSpace c
  constructor
  · unfold fileName specResourceId
    rw [h]
  · unfold fileNameApp specResourceIdApp specResourceId
    rw [h, List.append_assoc]

end WhiteNoise
